import Mathlib

/-!
Verification of the gnet reactor core (zjllib/gnet) against its
natural-language specification.

The embedding below follows the Go sources: `Action`, `Server`,
`CountConnections` and `Serve` from the main package file, the
`EventHandler` / `EventServer` pair from the events file, and the `Conn`
capability surface from conn.go.  Components whose implementation is not
among the provided sources (the RingBuffer, the event loop, the async
bridge) are modelled from the specification; each such definition carries
a doc comment saying so.
-/

namespace Gnet

/-- Action is an action that occurs after the completion of an event
(None, Close, Shutdown), with None the zero value, as in the Go source. -/
inductive Action where
  | None
  | Close
  | Shutdown
deriving DecidableEq, Repr

/-- The options recognised by `Serve` that its startup check inspects:
`LockOSThread` and `NumEventLoop` (a Go `int`, hence `Int` here). -/
structure Options where
  lockOSThread : Bool
  numEventLoop : Int
deriving DecidableEq, Repr

/-- Errors surfaced by `Serve`: the event-loop-count startup error
`errors.ErrTooManyEventLoopThreads`, or some other error (listener
initialisation failure, runtime failure) identified by its message. -/
inductive GnetError where
  | errTooManyEventLoopThreads
  | otherErr (msg : String)
deriving DecidableEq, Repr

/-- Modelled from the spec: the behaviour of the code `Serve` runs after
its startup check — `initListener` (which may fail to bind) and the
internal `serve` loop driver — is not among the provided sources, so it
is abstracted as an oracle giving each stage's outcome.  Neither stage
produces `ErrTooManyEventLoopThreads`; that error is produced only by
the check inside `Serve` itself. -/
structure Downstream where
  listenerErr : Option String
  serveErr : Option String
deriving DecidableEq, Repr

/-- Outcome of a `Serve` call: the returned error (if any) and whether a
listener socket was bound at any point during the call. -/
structure ServeOutcome where
  result : Option GnetError
  listenerBound : Bool
deriving DecidableEq, Repr

/-- `Serve` from the main package file: after loading options it checks
`options.LockOSThread && options.NumEventLoop > 10000` and returns
`ErrTooManyEventLoopThreads` before creating any listener; otherwise it
initialises the listener and hands off to the internal `serve`. -/
def Serve (options : Options) (ds : Downstream) : ServeOutcome :=
  if options.lockOSThread = true ∧ options.numEventLoop > 10000 then
    { result := some GnetError.errTooManyEventLoopThreads, listenerBound := false }
  else
    match ds.listenerErr with
    | some m => { result := some (GnetError.otherErr m), listenerBound := false }
    | none =>
      match ds.serveErr with
      | some m => { result := some (GnetError.otherErr m), listenerBound := true }
      | none => { result := none, listenerBound := true }

end Gnet

namespace Gnet

/-- C1: with LockOSThread enabled and NumEventLoop strictly greater than
10,000, `Serve` returns `ErrTooManyEventLoopThreads` before any listener
is created, so no socket is bound — for every downstream behaviour. -/
theorem serve_lockosthread_cap_error (options : Options) (ds : Downstream)
    (hLock : options.lockOSThread = true) (hNum : options.numEventLoop > 10000) :
    Serve options ds =
      { result := some GnetError.errTooManyEventLoopThreads, listenerBound := false } := by
  unfold Serve
  rw [if_pos ⟨hLock, hNum⟩]

/-- Witness for C1 at the concrete options of the spec scenario:
LockOSThread on and 10,001 event loops, with a downstream that would
otherwise succeed. -/
theorem serve_lockosthread_cap_error_witness :
    Serve { lockOSThread := true, numEventLoop := 10001 }
        { listenerErr := none, serveErr := none } =
      { result := some GnetError.errTooManyEventLoopThreads, listenerBound := false } :=
  serve_lockosthread_cap_error
    { lockOSThread := true, numEventLoop := 10001 }
    { listenerErr := none, serveErr := none } rfl (by decide)

/-- C10: the pinned-loop limit is one-sided and conditional: with
LockOSThread disabled `Serve` never returns `ErrTooManyEventLoopThreads`
whatever NumEventLoop is, and with LockOSThread enabled a NumEventLoop
of exactly 10,000 passes the check. -/
theorem serve_cap_one_sided (o1 : Options) (d1 : Downstream)
    (o2 : Options) (d2 : Downstream)
    (h1 : o1.lockOSThread = false)
    (h2 : o2.lockOSThread = true) (h3 : o2.numEventLoop = 10000) :
    (Serve o1 d1).result ≠ some GnetError.errTooManyEventLoopThreads ∧
    (Serve o2 d2).result ≠ some GnetError.errTooManyEventLoopThreads := by
  constructor
  · unfold Serve
    rw [if_neg]
    · cases d1.listenerErr with
      | some m => simp
      | none =>
        cases d1.serveErr with
        | some m => simp
        | none => simp
    · intro hc
      rw [h1] at hc
      exact Bool.false_ne_true hc.1
  · unfold Serve
    rw [if_neg]
    · cases d2.listenerErr with
      | some m => simp
      | none =>
        cases d2.serveErr with
        | some m => simp
        | none => simp
    · intro hc
      rw [h3] at hc
      exact absurd hc.2 (by decide)

/-- Modelled from the spec: the RingBuffer implementation (package
ringbuffer) is not among the provided sources.  Per §4.1 of the spec it
is a growable circular byte buffer; the region between the
consume-cursor and the write-cursor is the available data, and growth is
unconditional so writes never fail.  The model keeps exactly that
region, as the list of available bytes in order. -/
structure RingBuffer where
  data : List UInt8
deriving DecidableEq, Repr

/-- `length()` returns the available byte count. -/
def RingBuffer.length (rb : RingBuffer) : Nat := rb.data.length

/-- `write(bytes)` appends, growing storage if needed; no error. -/
def RingBuffer.write (rb : RingBuffer) (bs : List UInt8) : RingBuffer :=
  { data := rb.data ++ bs }

/-- `peek(n)` returns up to n available bytes without consuming. -/
def RingBuffer.peek (rb : RingBuffer) (n : Nat) : List UInt8 := rb.data.take n

/-- `peekAll()` returns all available bytes without consuming. -/
def RingBuffer.peekAll (rb : RingBuffer) : List UInt8 := rb.data

/-- `shift(n)` advances the consume-cursor by min(n, available) and
returns the number actually shifted, paired with the new state. -/
def RingBuffer.shift (rb : RingBuffer) (n : Nat) : Nat × RingBuffer :=
  (min n rb.data.length, { data := rb.data.drop n })

/-- `reset()` discards all buffered data. -/
def RingBuffer.reset (_rb : RingBuffer) : RingBuffer := { data := [] }

/-- An operation in a RingBuffer usage sequence: a write, a peek, or a
shift (the three operations of the accounting law). -/
inductive RBOp where
  | write (bs : List UInt8)
  | peek (n : Nat)
  | shift (n : Nat)
deriving DecidableEq, Repr

/-- Applying one operation: the new state together with the number of
bytes written by the operation and the number actually shifted by it. -/
def RingBuffer.applyOp (rb : RingBuffer) : RBOp → RingBuffer × Nat × Nat
  | RBOp.write bs => (rb.write bs, bs.length, 0)
  | RBOp.peek n =>
    let _observed := rb.peek n
    (rb, 0, 0)
  | RBOp.shift n => ((rb.shift n).2, 0, (rb.shift n).1)

/-- Running a sequence of operations from a starting state, accumulating
the final state, the total bytes written and the total bytes shifted. -/
def RingBuffer.runOps (rb : RingBuffer) : List RBOp → RingBuffer × Nat × Nat
  | [] => (rb, 0, 0)
  | op :: ops =>
    let step := rb.applyOp op
    let rest := RingBuffer.runOps step.1 ops
    (rest.1, step.2.1 + rest.2.1, step.2.2 + rest.2.2)

/-- Invariant behind the accounting law: over any operation sequence
from any start state, final length plus total shifted equals start
length plus total written. -/
theorem RingBuffer.runOps_length (rb : RingBuffer) (ops : List RBOp) :
    (rb.runOps ops).1.length + (rb.runOps ops).2.2 =
      rb.length + (rb.runOps ops).2.1 := by
  induction ops generalizing rb with
  | nil => simp [runOps]
  | cons op ops ih =>
    cases op with
    | write bs =>
      simp only [runOps, applyOp]
      have h := ih (rb.write bs)
      simp only [write, length, List.length_append] at h ⊢
      omega
    | peek n =>
      simp only [runOps, applyOp]
      have h := ih rb
      omega
    | shift n =>
      simp only [runOps, applyOp]
      have h := ih (rb.shift n).2
      simp only [shift, length, List.length_drop] at h ⊢
      omega

end Gnet

namespace Gnet

/-- C2: for every sequence of RingBuffer writes interleaved with peeks
and shifts, starting from an empty buffer, the total actually shifted
never exceeds the total written and `length()` after the sequence equals
total bytes written minus total bytes actually shifted. -/
theorem ringbuffer_accounting_law (ops : List RBOp) :
    (RingBuffer.runOps { data := [] } ops).2.2 ≤
        (RingBuffer.runOps { data := [] } ops).2.1 ∧
    (RingBuffer.runOps { data := [] } ops).1.length =
      (RingBuffer.runOps { data := [] } ops).2.1 -
        (RingBuffer.runOps { data := [] } ops).2.2 := by
  have h := RingBuffer.runOps_length { data := [] } ops
  have h0 : RingBuffer.length { data := [] } = 0 := rfl
  rw [h0, Nat.zero_add] at h
  omega

/-- C3: `shift(n)` advances the consume-cursor by exactly
min(n, available) and returns that amount; the returned size never
exceeds the requested n (and, being a count of bytes, is never
negative). -/
theorem shift_min_available (rb : RingBuffer) (n : Nat) :
    (rb.shift n).1 = min n rb.length ∧
    (rb.shift n).2.length + (rb.shift n).1 = rb.length ∧
    (rb.shift n).1 ≤ n := by
  refine ⟨rfl, ?_, Nat.min_le_left n rb.length⟩
  simp only [RingBuffer.shift, RingBuffer.length, List.length_drop]
  omega

/-- Modelled from the spec: the Conn implementation is absent from the
sources (conn.go only declares the interface).  Per conn.go's documented
contract, `ReadN(n)` reads up to n bytes from the inbound buffers
without moving the read pointer and returns both the bytes and their
size; if fewer than n bytes are available it returns all available
data.  The combined inbound ring-buffer and event-loop buffer are
abstracted as one available-byte buffer. -/
def ReadN (rb : RingBuffer) (n : Nat) : Nat × List UInt8 :=
  if rb.length < n then (rb.length, rb.data) else (n, rb.data.take n)

/-- Modelled from the spec: `Read` reads all data from the inbound
buffers without moving the read pointer. -/
def Read (rb : RingBuffer) : List UInt8 := rb.peekAll

/-- The buffer-touching operations of the Conn capability surface:
`Read`, `ReadN`, `ShiftN`, `ResetBuffer`, plus the loop appending newly
arrived bytes (`write`). -/
inductive ConnOp where
  | read
  | readN (n : Nat)
  | shiftN (n : Nat)
  | resetBuffer
  | write (bs : List UInt8)
deriving DecidableEq, Repr

/-- Modelled from the spec: the effect of each Conn operation on the
inbound buffer state.  `Read`/`ReadN` are pure observations; `ShiftN`
advances the consume-cursor; `ResetBuffer` evicts everything. -/
def connStep (rb : RingBuffer) : ConnOp → RingBuffer
  | ConnOp.read => rb
  | ConnOp.readN _ => rb
  | ConnOp.shiftN n => (rb.shift n).2
  | ConnOp.resetBuffer => rb.reset
  | ConnOp.write bs => rb.write bs

/-- Modelled from the spec: one connection's callback trace, per §4.3 of
the spec — `OnOpened` fires synchronously the moment the connection is
registered with its loop, before any data event; each subsequent
readiness event invokes `React`; `OnClosed` fires once at teardown,
after which no further events occur for that connection. -/
inductive ConnEvent where
  | onOpened
  | react
  | onClosed
deriving DecidableEq, Repr

/-- Modelled from the spec: the trace of callback events a single
accepted connection experiences, parameterised by how many readiness
events (React invocations) occurred during its life. -/
def connLifecycle (reacts : Nat) : List ConnEvent :=
  ConnEvent.onOpened :: (List.replicate reacts ConnEvent.react ++ [ConnEvent.onClosed])

/-- An event loop, reduced to the one field `CountConnections` reads:
the per-loop connection counter `connCount` (an int32 maintained and
read atomically in Go, modelled as `Int`). -/
structure Eventloop where
  connCount : Int
deriving DecidableEq, Repr

/-- Modelled from the spec: `subEventLoopSet.iterate` (whose source is
absent) visits every loop of the pool in order while the callback
returns true; `CountConnections`' callback always returns true, so the
call is a fold over all loops.  The body is the one in the Go source:
`count += int(atomic.LoadInt32(&el.connCount)); return true`. -/
def CountConnections (loops : List Eventloop) : Int :=
  loops.foldl (fun count el => count + el.connCount) 0

/-- A task queued on a loop's cross-thread bridge: an asynchronous write
carrying its payload, or a wake marker. -/
inductive AsyncTask where
  | taskWrite (payload : List UInt8)
  | taskWake
deriving DecidableEq, Repr

/-- The connection state the async bridge inspects: the liveness flag
and the target loop's queue of tasks addressed to this connection. -/
structure AsyncConn where
  closed : Bool
  queue : List AsyncTask
deriving DecidableEq, Repr

/-- The typed error of the async bridge: the "connection closed"
condition reported to a foreign caller targeting a closed connection. -/
inductive AsyncError where
  | errConnClosed
deriving DecidableEq, Repr

/-- Modelled from the spec: `AsyncWrite` (implementation absent; conn.go
declares it) constructs a request record and enqueues it into the target
loop's queue; per §4.5 the enqueue never fails except when the
connection is already closed, in which case the call reports the typed
"connection closed" condition instead of silently dropping. -/
def AsyncWrite (c : AsyncConn) (buf : List UInt8) : Except AsyncError AsyncConn :=
  if c.closed then Except.error AsyncError.errConnClosed
  else Except.ok { c with queue := c.queue ++ [AsyncTask.taskWrite buf] }

/-- Modelled from the spec: `Wake` enqueues a synthetic wake marker for
the connection, with the same closed-connection failure contract as
`AsyncWrite`. -/
def Wake (c : AsyncConn) : Except AsyncError AsyncConn :=
  if c.closed then Except.error AsyncError.errConnClosed
  else Except.ok { c with queue := c.queue ++ [AsyncTask.taskWake] }

/-- The exported `Server` context of the Go source, without the internal
`svr` pointer (exercised only through `CountConnections`, embedded
separately above): multicore flag, bound address, loop count, port-reuse
flag, keep-alive duration (nanoseconds). -/
structure Server where
  multicore : Bool
  addr : String
  numEventLoop : Int
  reusePort : Bool
  tcpKeepAlive : Int
deriving DecidableEq, Repr

/-- EventServer is the built-in implementation of EventHandler from the
events file; it has no fields and every method body is the default
`return` of the named zero-valued results. -/
structure EventServer
deriving DecidableEq, Repr

/-- `OnInitComplete` of EventServer: `return` of the zero Action. -/
def EventServer.OnInitComplete (_es : EventServer) (_svr : Server) : Action :=
  Action.None

/-- `OnShutdown` of EventServer: empty body. -/
def EventServer.OnShutdown (_es : EventServer) (_svr : Server) : Unit := ()

/-- `OnOpened` of EventServer: `return` of the zero values — a nil out
slice (`none`) and the zero Action. -/
def EventServer.OnOpened (_es : EventServer) (_c : RingBuffer) :
    Option (List UInt8) × Action :=
  (none, Action.None)

/-- `OnClosed` of EventServer: `return` of the zero Action. -/
def EventServer.OnClosed (_es : EventServer) (_c : RingBuffer)
    (_err : Option String) : Action :=
  Action.None

/-- `PreWrite` of EventServer: empty body. -/
def EventServer.PreWrite (_es : EventServer) : Unit := ()

/-- `React` of EventServer: `return` of the zero values — a nil out
slice and the zero Action. -/
def EventServer.React (_es : EventServer) (_frame : List UInt8)
    (_c : RingBuffer) : Option (List UInt8) × Action :=
  (none, Action.None)

/-- `Tick` of EventServer: `return` of the zero values — a zero
duration and the zero Action. -/
def EventServer.Tick (_es : EventServer) : Int × Action :=
  (0, Action.None)

/-- Witness for C10: LockOSThread off with 1,000,000 loops, and
LockOSThread on with exactly 10,000 loops; neither yields the cap error. -/
theorem serve_cap_one_sided_witness :
    (Serve { lockOSThread := false, numEventLoop := 1000000 }
        { listenerErr := none, serveErr := none }).result ≠
      some GnetError.errTooManyEventLoopThreads ∧
    (Serve { lockOSThread := true, numEventLoop := 10000 }
        { listenerErr := none, serveErr := none }).result ≠
      some GnetError.errTooManyEventLoopThreads :=
  serve_cap_one_sided
    { lockOSThread := false, numEventLoop := 1000000 }
    { listenerErr := none, serveErr := none }
    { lockOSThread := true, numEventLoop := 10000 }
    { listenerErr := none, serveErr := none }
    rfl rfl rfl

/-- C4: for every connection buffer state and every n, if fewer than n
bytes are available then `ReadN(n)` returns all currently available
bytes, and the returned size always equals the length of the returned
byte slice. -/
theorem readN_returns_available (rb : RingBuffer) (n : Nat) :
    (rb.length < n → ReadN rb n = (rb.length, rb.data)) ∧
    (ReadN rb n).1 = (ReadN rb n).2.length := by
  constructor
  · intro h
    unfold ReadN
    rw [if_pos h]
  · unfold ReadN
    by_cases h : rb.length < n
    · rw [if_pos h]
      rfl
    · rw [if_neg h]
      simp only [RingBuffer.length] at h
      simp only [List.length_take]
      omega

/-- Witness for C4: a two-byte buffer asked for five bytes yields both
bytes with size two. -/
theorem readN_returns_available_witness :
    ReadN { data := [1, 2] } 5 = (RingBuffer.length { data := [1, 2] }, [1, 2]) ∧
    (ReadN { data := [1, 2] } 5).1 = (ReadN { data := [1, 2] } 5).2.length :=
  ⟨(readN_returns_available { data := [1, 2] } 5).1 (by decide),
   (readN_returns_available { data := [1, 2] } 5).2⟩

/-- C5: `Read` and `ReadN` never advance the consume-cursor — after
either the buffer state is unchanged (so available length and contents
are intact) — and any operation that evicts data is a `ShiftN` or a
`ResetBuffer`. -/
theorem read_never_consumes (rb : RingBuffer) (n : Nat) (op : ConnOp) :
    connStep rb ConnOp.read = rb ∧
    Read rb = rb.data ∧
    connStep rb (ConnOp.readN n) = rb ∧
    ((connStep rb op).length < rb.length →
      (∃ k, op = ConnOp.shiftN k) ∨ op = ConnOp.resetBuffer) := by
  refine ⟨rfl, rfl, rfl, ?_⟩
  intro h
  cases op with
  | read => exact absurd h (lt_irrefl _)
  | readN m => exact absurd h (lt_irrefl _)
  | shiftN k => exact Or.inl ⟨k, rfl⟩
  | resetBuffer => exact Or.inr rfl
  | write bs =>
    exfalso
    simp only [connStep, RingBuffer.write, RingBuffer.length,
      List.length_append] at h
    omega

/-- Witness for C5: on a one-byte buffer, reads leave the state intact
and the eviction that does shrink it (a ResetBuffer) is classified as
such. -/
theorem read_never_consumes_witness :
    connStep { data := [7] } ConnOp.read = { data := [7] } ∧
    Read { data := [7] } = [7] ∧
    connStep { data := [7] } (ConnOp.readN 1) = { data := [7] } ∧
    ((∃ k, ConnOp.resetBuffer = ConnOp.shiftN k) ∨
      ConnOp.resetBuffer = ConnOp.resetBuffer) :=
  ⟨(read_never_consumes { data := [7] } 1 ConnOp.resetBuffer).1,
   (read_never_consumes { data := [7] } 1 ConnOp.resetBuffer).2.1,
   (read_never_consumes { data := [7] } 1 ConnOp.resetBuffer).2.2.1,
   (read_never_consumes { data := [7] } 1 ConnOp.resetBuffer).2.2.2 (by decide)⟩

/-- C6: in every connection's lifecycle trace, `OnOpened` occurs exactly
once and is the very first event (hence before any `React`), and
`OnClosed` occurs exactly once and is the very last event (hence never
before `OnOpened`). -/
theorem lifecycle_opened_first_closed_last (reacts : Nat) :
    (connLifecycle reacts).count ConnEvent.onOpened = 1 ∧
    (connLifecycle reacts).count ConnEvent.onClosed = 1 ∧
    (connLifecycle reacts).head? = some ConnEvent.onOpened ∧
    (connLifecycle reacts).getLast? = some ConnEvent.onClosed := by
  refine ⟨?_, ?_, rfl, ?_⟩
  · simp [connLifecycle, List.count_cons, List.count_append,
      List.count_replicate]
  · simp [connLifecycle, List.count_cons, List.count_append,
      List.count_replicate]
  · rw [connLifecycle, ← List.cons_append, List.getLast?_concat]

/-- C7: `CountConnections` returns the sum over every event loop in the
pool of that loop's connection counter. -/
theorem countConnections_sum (loops : List Eventloop) :
    CountConnections loops = (loops.map Eventloop.connCount).sum := by
  have general : ∀ (ls : List Eventloop) (acc : Int),
      ls.foldl (fun count el => count + el.connCount) acc =
        acc + (ls.map Eventloop.connCount).sum := by
    intro ls
    induction ls with
    | nil => intro acc; simp
    | cons el rest ih =>
      intro acc
      simp only [List.foldl_cons, List.map_cons, List.sum_cons, ih]
      ring
  have h := general loops 0
  rw [CountConnections, h, Int.zero_add]

/-- C8: an `AsyncWrite` or `Wake` call targeting an already-closed
connection returns the typed "connection closed" error; targeting an
open connection it never fails and appends the request record to the
target loop's queue (the payload is not dropped). -/
theorem asyncWrite_closed_typed_error (c1 c2 : AsyncConn) (buf : List UInt8)
    (hClosed : c1.closed = true) (hOpen : c2.closed = false) :
    AsyncWrite c1 buf = Except.error AsyncError.errConnClosed ∧
    Wake c1 = Except.error AsyncError.errConnClosed ∧
    AsyncWrite c2 buf =
      Except.ok { c2 with queue := c2.queue ++ [AsyncTask.taskWrite buf] } ∧
    Wake c2 = Except.ok { c2 with queue := c2.queue ++ [AsyncTask.taskWake] } := by
  refine ⟨?_, ?_, ?_, ?_⟩
  · unfold AsyncWrite
    rw [hClosed]
    rfl
  · unfold Wake
    rw [hClosed]
    rfl
  · unfold AsyncWrite
    rw [hOpen]
    rfl
  · unfold Wake
    rw [hOpen]
    rfl

/-- Witness for C8: a closed connection rejects both calls with the
typed error; an open connection with an empty queue accepts both. -/
theorem asyncWrite_closed_typed_error_witness :
    AsyncWrite { closed := true, queue := [] } [5] =
      Except.error AsyncError.errConnClosed ∧
    Wake { closed := true, queue := [] } =
      Except.error AsyncError.errConnClosed ∧
    AsyncWrite { closed := false, queue := [] } [5] =
      Except.ok { closed := false, queue := [AsyncTask.taskWrite [5]] } ∧
    Wake { closed := false, queue := [] } =
      Except.ok { closed := false, queue := [AsyncTask.taskWake] } :=
  asyncWrite_closed_typed_error
    { closed := true, queue := [] } { closed := false, queue := [] } [5] rfl rfl

/-- C9: every method of the default EventServer is inert: the Action
results are all `None`, the out slices are nil, the Tick delay is zero,
and `OnShutdown` and `PreWrite` do nothing. -/
theorem eventServer_inert (es : EventServer) (svr : Server) (c : RingBuffer)
    (frame : List UInt8) (err : Option String) :
    es.OnInitComplete svr = Action.None ∧
    es.OnShutdown svr = () ∧
    es.OnOpened c = (none, Action.None) ∧
    es.OnClosed c err = Action.None ∧
    es.PreWrite = () ∧
    es.React frame c = (none, Action.None) ∧
    es.Tick = (0, Action.None) :=
  ⟨rfl, rfl, rfl, rfl, rfl, rfl, rfl⟩

end Gnet
